import Mathlib

/-!
Verification of the `legislatie_api.py` REST-to-SOAP proxy.

Shallow embedding conventions:
* Python strings are modelled as `List Char` (ASCII fragment; the upstream
  payloads and all constants in the source are ASCII).
* `re.search`/`re.finditer` with the concrete patterns of the source are
  modelled by explicit leftmost-match scanning functions.
* Network calls are modelled by an environment (`Env`) supplying the
  upstream responses; exceptions are modelled by `Except`.
* `int(...)` on a string is modelled by `pyInt` (CPython semantics on the
  ASCII fragment: surrounding whitespace, optional sign, digits with
  single underscores between digits).
-/

namespace Legi

/-- Boolean test: `p` is a prefix of `s`. -/
def hasPre : List Char → List Char → Bool
  | [], _ => true
  | _ :: _, [] => false
  | p :: ps, c :: cs => p == c && hasPre ps cs

/-- Leftmost occurrence search: split `s` as `pre ++ p ++ post` at the first
occurrence of `p`, returning `(pre, post)`.  Models the scanning a regex
engine performs for a literal pattern. -/
def findSplit (p : List Char) : List Char → Option (List Char × List Char)
  | [] => if hasPre p [] then some ([], []) else none
  | c :: cs =>
    if hasPre p (c :: cs) then some ([], (c :: cs).drop p.length)
    else
      match findSplit p cs with
      | some (pre, post) => some (c :: pre, post)
      | none => none

/-- Model of `re.search(r'<open>(.*?)</close>', s, re.DOTALL)` for literal
open/close delimiters: content between the first occurrence of `openTag`
and the first occurrence of `closeTag` after it, plus the rest after the
close tag. -/
def extractBetween (openTag closeTag s : List Char) : Option (List Char × List Char) :=
  match findSplit openTag s with
  | none => none
  | some (_, afterOpen) =>
    match findSplit closeTag afterOpen with
    | none => none
    | some (content, afterClose) => some (content, afterClose)

/-- ASCII whitespace accepted by Python's `str.strip()` / `int()`. -/
def isPySpace (c : Char) : Bool :=
  c == ' ' || c == '\t' || c == '\n' || c == '\r' || c == Char.ofNat 11 || c == Char.ofNat 12

/-- Python `str.strip()` (ASCII fragment): drop whitespace at both ends. -/
def stripWs (s : List Char) : List Char :=
  ((s.dropWhile fun c => isPySpace c).reverse.dropWhile fun c => isPySpace c).reverse

/-- Digit-sequence parser for `pyInt`: `ok` records whether the previous
character was a digit (so that an underscore or the end of input is
allowed).  Implements CPython's rule that underscores may appear only
between digits. -/
def digitsLoop : List Char → Bool → Nat → Option Nat
  | [], ok, acc => if ok then some acc else none
  | c :: cs, ok, acc =>
    if c.isDigit then digitsLoop cs true (10 * acc + (c.toNat - 48))
    else if c == '_' && ok then digitsLoop cs false acc
    else none

/-- Model of CPython `int(s)` for an ASCII `str` argument: strip
whitespace, optional sign, digits with single underscores between digits;
`none` models the `ValueError`. -/
def pyInt (s : List Char) : Option Int :=
  match stripWs s with
  | '+' :: rest => (digitsLoop rest false 0).map fun n => (n : Int)
  | '-' :: rest => (digitsLoop rest false 0).map fun n => -(n : Int)
  | rest => (digitsLoop rest false 0).map fun n => (n : Int)

/-- Decimal digits of `n` (auxiliary, fuel-driven so that it is structural
and kernel-evaluable). -/
def natStrAux : Nat → Nat → List Char
  | 0, _ => []
  | fuel + 1, n =>
    if n < 10 then [Char.ofNat (48 + n)]
    else natStrAux fuel (n / 10) ++ [Char.ofNat (48 + n % 10)]

/-- Decimal representation of a natural number, as Python's `str`/f-string
formats it. -/
def natStr (n : Nat) : List Char := natStrAux (n + 1) n

/-- Decimal representation of an integer, as Python's f-string formats it. -/
def intStr : Int → List Char
  | .ofNat n => natStr n
  | .negSucc m => '-' :: natStr (m + 1)

/-- One character of `xml.sax.saxutils.escape`: `&`, `<`, `>` become
entities, everything else is kept. -/
def xmlEscapeChar (c : Char) : List Char :=
  if c == '&' then ['&', 'a', 'm', 'p', ';']
  else if c == '<' then ['&', 'l', 't', ';']
  else if c == '>' then ['&', 'g', 't', ';']
  else [c]

/-- `xml.sax.saxutils.escape` (the sequential replacements of `&`, `<`,
`>` are equivalent to this character-wise expansion, since the inserted
entities are never rescanned for `<` or `>`). -/
def xmlEscape : List Char → List Char
  | [] => []
  | c :: cs => xmlEscapeChar c ++ xmlEscape cs

/-- Python truthiness of an optional string: `None` and `""` are falsy. -/
def optTruthy : Option (List Char) → Bool
  | none => false
  | some s => !s.isEmpty

/-- `extract_tag` from the source: try `<a:tag>(.*?)</a:tag>`, then
`<tag>(.*?)</tag>`, stripping the matched content; absent tag gives the
empty string.  Both regexes are case-sensitive in the source (no
`re.IGNORECASE`). -/
def extract_tag (xml tag : List Char) : List Char :=
  match extractBetween ("<a:".toList ++ tag ++ ['>']) ("</a:".toList ++ tag ++ ['>']) xml with
  | some (content, _) => stripWs content
  | none =>
    match extractBetween ("<".toList ++ tag ++ ['>']) ("</".toList ++ tag ++ ['>']) xml with
    | some (content, _) => stripWs content
    | none => []

/-- `link.split('/')[-1]`: the last `/`-separated component. -/
def lastAfterSlash (s : List Char) : List Char :=
  (s.reverse.takeWhile fun c => c != '/').reverse

/-- A normalized legislative-act record, the dict built by `format_lege`. -/
structure Lege where
  id : List Char
  title : List Char
  number : List Char
  type : List Char
  issuer : List Char
  effective_date : List Char
  publication : List Char
  text_preview : List Char
  text_full : List Char
  url : List Char
deriving DecidableEq, Repr

/-- `format_lege` from the source: build a record from one XML fragment. -/
def format_lege (xml : List Char) : Lege :=
  let link := extract_tag xml "LinkHtml".toList
  let text := extract_tag xml "Text".toList
  { id := if !link.isEmpty then lastAfterSlash link else []
    title := extract_tag xml "Titlu".toList
    number := extract_tag xml "Numar".toList
    type := extract_tag xml "TipAct".toList
    issuer := extract_tag xml "Emitent".toList
    effective_date := extract_tag xml "DataVigoare".toList
    publication := extract_tag xml "Publicatie".toList
    text_preview := if !text.isEmpty then text.take 500 else []
    text_full := text
    url := link }

/-- `re.finditer(r'<a:Legi>(.*?)</a:Legi>', body, re.DOTALL)`: all
non-overlapping leftmost-shortest matches, fuel-driven (the fuel
`body.length` exceeds the possible number of matches). -/
def findAllBetween (openTag closeTag : List Char) : Nat → List Char → List (List Char)
  | 0, _ => []
  | fuel + 1, s =>
    match extractBetween openTag closeTag s with
    | none => []
    | some (content, rest) => content :: findAllBetween openTag closeTag fuel rest

/-- The `<a:Legi>` fragments of a response body. -/
def legiFragments (body : List Char) : List (List Char) :=
  findAllBetween "<a:Legi>".toList "</a:Legi>".toList body.length body

/-- Lines 306-311 of the source: one record per fragment (`format_lege`
is total, so the `try/except` around it never fires). -/
def parse_results (body : List Char) : List Lege :=
  (legiFragments body).map format_lege

/-! ## SOAP envelope builder (`build_search_body`) -/

/-- The separator `'\n        '.join(params)` uses. -/
def sepStr : List Char := "\n        ".toList

/-- `'\n        '.join(params)`. -/
def joinSep (sep : List Char) : List (List Char) → List Char
  | [] => []
  | [x] => x
  | x :: xs => x ++ sep ++ joinSep sep xs

/-- The `<a:NumarPagina>` parameter element. -/
def pageParam (page : Int) : List Char :=
  "<a:NumarPagina>".toList ++ intStr page ++ "</a:NumarPagina>".toList

/-- The `<a:RezultatePagina>` parameter element. -/
def ppParam (per_page : Int) : List Char :=
  "<a:RezultatePagina>".toList ++ intStr per_page ++ "</a:RezultatePagina>".toList

/-- The `<a:SearchAn>` parameter element: `if year:` then
`try: int(year)` with the `ValueError` branch emitting the nil marker;
absent or empty year also emits the nil marker. -/
def anParam (year : Option (List Char)) : List Char :=
  if optTruthy year then
    match pyInt (year.getD []) with
    | some n => "<a:SearchAn>".toList ++ intStr n ++ "</a:SearchAn>".toList
    | none => "<a:SearchAn i:nil=\"true\" />".toList
  else "<a:SearchAn i:nil=\"true\" />".toList

/-- The `<a:SearchNumar>` parameter element (XML-escaped when present). -/
def numParam (number : Option (List Char)) : List Char :=
  if optTruthy number then
    "<a:SearchNumar>".toList ++ xmlEscape (number.getD []) ++ "</a:SearchNumar>".toList
  else "<a:SearchNumar i:nil=\"true\" />".toList

/-- The `<a:SearchText>` parameter element (XML-escaped when present). -/
def txtParam (text : Option (List Char)) : List Char :=
  if optTruthy text then
    "<a:SearchText>".toList ++ xmlEscape (text.getD []) ++ "</a:SearchText>".toList
  else "<a:SearchText i:nil=\"true\" />".toList

/-- The `<a:SearchTitlu>` parameter element (XML-escaped when present). -/
def titleParam (title : Option (List Char)) : List Char :=
  if optTruthy title then
    "<a:SearchTitlu>".toList ++ xmlEscape (title.getD []) ++ "</a:SearchTitlu>".toList
  else "<a:SearchTitlu i:nil=\"true\" />".toList

/-- The f-string template text before `{params_str}`. -/
def tmplPre : List Char :=
  ("<?xml version=\"1.0\" encoding=\"utf-8\"?>\n<soap:Envelope xmlns:soap=\"http://schemas.xmlsoap.org/soap/envelope/\">\n  <soap:Body>\n    <Search xmlns=\"http://tempuri.org/\">\n      <SearchModel xmlns:a=\"http://schemas.datacontract.org/2004/07/FreeWebService\" xmlns:i=\"http://www.w3.org/2001/XMLSchema-instance\">\n        ").toList

/-- The f-string template text between `{params_str}` and `{token}`. -/
def tmplMid : List Char :=
  ("\n      </SearchModel>\n      <tokenKey>").toList

/-- The f-string template text after `{token}`. -/
def tmplPost : List Char :=
  ("</tokenKey>\n    </Search>\n  </soap:Body>\n</soap:Envelope>").toList

/-- `build_search_body` from the source: the six parameter elements in
WSDL order, joined and spliced into the envelope template together with
the token. -/
def build_search_body (token : List Char) (page per_page : Int)
    (title year number text : Option (List Char)) : List Char :=
  tmplPre ++
    joinSep sepStr
      [pageParam page, ppParam per_page, anParam year, numParam number,
       txtParam text, titleParam title] ++
    tmplMid ++ token ++ tmplPost

/-! ## Token manager -/

/-- The `_token_cache` dict: token string and expiry instant (seconds). -/
structure TokenCache where
  token : Option (List Char)
  expires_at : Option Nat
deriving DecidableEq, Repr

/-- The cache after `invalidate_token()` (and the initial cache). -/
def emptyCache : TokenCache := { token := none, expires_at := none }

/-- An upstream HTTP response: status code and text body. -/
structure UpstreamResponse where
  status : Nat
  body : List Char
deriving DecidableEq, Repr

/-- `re.search(r'<GetTokenResult>([^<]+)</GetTokenResult>', body)`:
leftmost position where the open tag is followed by a nonempty run of
non-`<` characters and then the close tag. -/
def findTokenMatch : List Char → Option (List Char)
  | [] => none
  | c :: cs =>
    if hasPre "<GetTokenResult>".toList (c :: cs) then
      let rest := (c :: cs).drop "<GetTokenResult>".toList.length
      let content := rest.takeWhile fun ch => ch != '<'
      if !content.isEmpty && hasPre "</GetTokenResult>".toList (rest.drop content.length)
      then some content
      else findTokenMatch cs
    else findTokenMatch cs

/-- `get_new_token` from the source, with the HTTP response supplied as an
argument: non-200 status or a missing `GetTokenResult` tag raises (the
`Except.error` branch) and leaves the cache untouched; on success the
stripped token is stored with expiry `now + lifetime`. -/
def get_new_token (lifetime now : Nat) (resp : UpstreamResponse) (cache : TokenCache) :
    Except (List Char) (List Char) × TokenCache :=
  if resp.status ≠ 200 then (.error "Erreur GetToken".toList, cache)
  else
    match findTokenMatch resp.body with
    | none => (.error "Token non trouve".toList, cache)
    | some raw =>
      ( .ok (stripWs raw),
        { token := some (stripWs raw), expires_at := some (now + lifetime) } )

/-- `get_cached_token` from the source: cache hit when the stored token is
truthy, an expiry is stored and `expires_at > now`; otherwise fall through
to `get_new_token` (whose response is supplied as `resp`). -/
def get_cached_token (lifetime now : Nat) (resp : UpstreamResponse) (cache : TokenCache) :
    Except (List Char) (List Char × Bool) × TokenCache :=
  match cache.token, cache.expires_at with
  | some t, some e =>
    if t ≠ [] ∧ now < e then (.ok (t, true), cache)
    else
      match get_new_token lifetime now resp cache with
      | (.ok tok, c) => (.ok (tok, false), c)
      | (.error m, c) => (.error m, c)
  | _, _ =>
    match get_new_token lifetime now resp cache with
    | (.ok tok, c) => (.ok (tok, false), c)
    | (.error m, c) => (.error m, c)

/-! ## Search handler -/

/-- `int(request.args.get("page", 0))`: absent gives 0; an unparsable
value raises `ValueError` (caught by the route's `except`, which returns
an error response). -/
def parse_page (arg : Option (List Char)) : Except (List Char) Int :=
  match arg with
  | none => .ok 0
  | some s =>
    match pyInt s with
    | some n => .ok n
    | none => .error "ValueError".toList

/-- `min(int(request.args.get("per_page", 10)), 100)`: absent gives
`min 10 100 = 10`; only the upper bound is clamped; an unparsable value
raises `ValueError`. -/
def parse_per_page (arg : Option (List Char)) : Except (List Char) Int :=
  match arg with
  | none => .ok (min (10 : Int) 100)
  | some s =>
    match pyInt s with
    | some n => .ok (min n 100)
    | none => .error "ValueError".toList

/-- The upstream world a single `/search` request sees: the clock and the
responses the network would hand each call (`fetch1`/`fetch2` for the
first and the retry `GetToken` call, `search1`/`search2` for the first
and the retry `Search` call). -/
structure Env where
  now : Nat
  fetch1 : UpstreamResponse
  fetch2 : UpstreamResponse
  search1 : UpstreamResponse
  search2 : UpstreamResponse
deriving Repr

/-- Outcome of the `/search` route: success flag, the result records, and
a trace of the upstream interaction (number of `do_search` calls, whether
`invalidate_token` ran, and the status of the last response received). -/
structure SearchResult where
  success : Bool
  results : List Lege
  attempts : Nat
  invalidated : Bool
  finalStatus : Option Nat
deriving DecidableEq, Repr

/-- The error response the route's `except` handler produces. -/
def errResult (attempts : Nat) (invalidated : Bool) : SearchResult :=
  { success := false, results := [], attempts, invalidated, finalStatus := none }

/-- Lines 298-340 of the source: final status check, fragment parsing and
the year post-filter applied when both `title` and `year` are truthy. -/
def finishResp (title year : Option (List Char)) (resp : UpstreamResponse)
    (attempts : Nat) (invalidated : Bool) (c : TokenCache) : SearchResult × TokenCache :=
  if resp.status ≠ 200 then
    ({ success := false, results := [], attempts, invalidated,
       finalStatus := some resp.status }, c)
  else
    ({ success := true,
       results :=
         if optTruthy title && optTruthy year then
           (parse_results resp.body).filter fun r => hasPre (year.getD []) r.effective_date
         else parse_results resp.body,
       attempts, invalidated, finalStatus := some resp.status }, c)

/-- Lines 293-296 of the source, reached when the first response had
status 500 and the token was cached: `invalidate_token()` (hence the
empty cache), a fresh `get_cached_token` (response `env.fetch2`), and the
second `do_search` (response `env.search2`).  A failing refetch is the
route's `except` branch after one attempt. -/
def retryStep (lifetime : Nat) (env : Env) (title year : Option (List Char)) :
    SearchResult × TokenCache :=
  match get_cached_token lifetime env.now env.fetch2 emptyCache with
  | (.error _, c3) => (errResult 1 true, c3)
  | (.ok _, c3) => finishResp title year env.search2 2 true c3

/-- The `/search` route (lines 260-344 of the source): parse pagination,
obtain a token, call upstream, retry exactly once when the first response
has status 500 and the token came from the cache, then parse and
post-filter. The network is the `Env` oracle; Python exceptions are the
`errResult` branches. -/
def search_handler (lifetime : Nat) (env : Env) (cache : TokenCache)
    (page per_page title year number text : Option (List Char)) :
    SearchResult × TokenCache :=
  match parse_page page with
  | .error _ => (errResult 0 false, cache)
  | .ok _ =>
    match parse_per_page per_page with
    | .error _ => (errResult 0 false, cache)
    | .ok _ =>
      match get_cached_token lifetime env.now env.fetch1 cache with
      | (.error _, c1) => (errResult 0 false, c1)
      | (.ok (_, wasCached), c1) =>
        if env.search1.status = 500 ∧ wasCached = true then retryStep lifetime env title year
        else finishResp title year env.search1 1 false c1

/-! ## Concrete scenarios used by witnesses and counterexamples -/

/-- A response body with three `<a:Legi>` fragments whose effective dates
are 2014-01-01, 2015-06-01 and 2014-09-09. -/
def bodyC1 : List Char :=
  ("<a:Legi><a:Titlu>X una</a:Titlu><a:DataVigoare>2014-01-01</a:DataVigoare></a:Legi>" ++
   "<a:Legi><a:Titlu>X doua</a:Titlu><a:DataVigoare>2015-06-01</a:DataVigoare></a:Legi>" ++
   "<a:Legi><a:Titlu>X trei</a:Titlu><a:DataVigoare>2014-09-09</a:DataVigoare></a:Legi>").toList

/-- Environment for the year+title workaround scenario: token fetch
succeeds, the search succeeds with `bodyC1`. -/
def envC1 : Env :=
  { now := 0
    fetch1 := ⟨200, "<GetTokenResult>tok</GetTokenResult>".toList⟩
    fetch2 := ⟨200, "<GetTokenResult>tok2</GetTokenResult>".toList⟩
    search1 := ⟨200, bodyC1⟩
    search2 := ⟨200, []⟩ }

/-- A cache holding a valid (unexpired, nonempty) token at time 0. -/
def cacheC2 : TokenCache := ⟨some "t".toList, some 100⟩

/-- Environment in which the first search response has status 403. -/
def envC2 : Env :=
  { now := 0
    fetch1 := ⟨200, "<GetTokenResult>tok</GetTokenResult>".toList⟩
    fetch2 := ⟨200, "<GetTokenResult>tok2</GetTokenResult>".toList⟩
    search1 := ⟨403, []⟩
    search2 := ⟨200, []⟩ }

/-- Environment in which the first search response has status 500. -/
def envC2b : Env :=
  { now := 0
    fetch1 := ⟨200, "<GetTokenResult>tok</GetTokenResult>".toList⟩
    fetch2 := ⟨200, "<GetTokenResult>tok2</GetTokenResult>".toList⟩
    search1 := ⟨500, []⟩
    search2 := ⟨200, []⟩ }

/-- A `<a:Legi>` fragment with no `Titlu` tag at all, inside a response
body. -/
def bodyC7 : List Char := "<a:Legi><a:Numar>5</a:Numar></a:Legi>".toList

/-- Environment whose successful search response is `bodyC7`. -/
def envC7 : Env :=
  { now := 0
    fetch1 := ⟨200, "<GetTokenResult>tok</GetTokenResult>".toList⟩
    fetch2 := ⟨200, "<GetTokenResult>tok2</GetTokenResult>".toList⟩
    search1 := ⟨200, bodyC7⟩
    search2 := ⟨200, []⟩ }

set_option maxRecDepth 100000

/-! ## Helper lemmas -/

/-- `p` occurs as a contiguous substring of `s`. -/
def occursIn (p s : List Char) : Prop := ∃ pre post, s = pre ++ p ++ post

theorem hasPre_exists : ∀ p s : List Char, hasPre p s = true → ∃ q, s = p ++ q
  | [], s, _ => ⟨s, rfl⟩
  | p :: ps, [], h => by simp [hasPre] at h
  | p :: ps, c :: cs, h => by
    simp only [hasPre, Bool.and_eq_true, beq_iff_eq] at h
    obtain ⟨rfl, h2⟩ := h
    obtain ⟨q, rfl⟩ := hasPre_exists ps cs h2
    exact ⟨q, rfl⟩

theorem findSplit_some_occurs (p : List Char) :
    ∀ s x, findSplit p s = some x → occursIn p s := by
  intro s
  induction s with
  | nil =>
    intro x h
    simp only [findSplit] at h
    split at h
    · next hp =>
      obtain ⟨q, hq⟩ := hasPre_exists p [] hp
      exact ⟨[], q, by simpa using hq⟩
    · exact absurd h (by simp)
  | cons c cs ih =>
    intro x h
    simp only [findSplit] at h
    split at h
    · next hp =>
      obtain ⟨q, hq⟩ := hasPre_exists p (c :: cs) hp
      exact ⟨[], q, by simpa using hq⟩
    · next hp =>
      cases hfs : findSplit p cs with
      | none => rw [hfs] at h; exact absurd h (by simp)
      | some y =>
        obtain ⟨pre, post, hdec⟩ := ih y hfs
        exact ⟨c :: pre, post, by simp [hdec]⟩

theorem extractBetween_none_of_absent (openTag closeTag s : List Char)
    (h : ¬ occursIn openTag s) : extractBetween openTag closeTag s = none := by
  unfold extractBetween
  cases hfs : findSplit openTag s with
  | none => rfl
  | some x => exact absurd (findSplit_some_occurs openTag s x hfs) h

theorem xmlEscape_no_angle :
    ∀ (s : List Char) (c : Char), c ∈ xmlEscape s → c ≠ '<' ∧ c ≠ '>'
  | [], c, h => by simp [xmlEscape] at h
  | a :: as, c, h => by
    simp only [xmlEscape, List.mem_append] at h
    rcases h with h | h
    · unfold xmlEscapeChar at h
      split at h
      · simp only [List.mem_cons, List.not_mem_nil, or_false] at h
        rcases h with rfl | rfl | rfl | rfl | rfl <;> exact ⟨by decide, by decide⟩
      · split at h
        · simp only [List.mem_cons, List.not_mem_nil, or_false] at h
          rcases h with rfl | rfl | rfl | rfl <;> exact ⟨by decide, by decide⟩
        · split at h
          · simp only [List.mem_cons, List.not_mem_nil, or_false] at h
            rcases h with rfl | rfl | rfl | rfl <;> exact ⟨by decide, by decide⟩
          · next h1 h2 h3 =>
            simp only [List.mem_cons, List.not_mem_nil, or_false] at h
            subst h
            exact ⟨by simpa using h2, by simpa using h3⟩
    · exact xmlEscape_no_angle as c h

/-- The envelope written out as a right-nested concatenation. -/
theorem build_body_decomp (token : List Char) (page per_page : Int)
    (title year number text : Option (List Char)) :
    build_search_body token page per_page title year number text =
      tmplPre ++ pageParam page ++ sepStr ++ ppParam per_page ++ sepStr ++
        anParam year ++ sepStr ++ numParam number ++ sepStr ++ txtParam text ++
        sepStr ++ titleParam title ++ tmplMid ++ token ++ tmplPost := by
  simp [build_search_body, joinSep, List.append_assoc]

theorem occursIn_titleParam (token : List Char) (page per_page : Int)
    (title year number text : Option (List Char)) :
    occursIn (titleParam title) (build_search_body token page per_page title year number text) :=
  ⟨tmplPre ++ pageParam page ++ sepStr ++ ppParam per_page ++ sepStr ++
      anParam year ++ sepStr ++ numParam number ++ sepStr ++ txtParam text ++ sepStr,
   tmplMid ++ token ++ tmplPost,
   by rw [build_body_decomp]; simp [List.append_assoc]⟩

theorem occursIn_numParam (token : List Char) (page per_page : Int)
    (title year number text : Option (List Char)) :
    occursIn (numParam number) (build_search_body token page per_page title year number text) :=
  ⟨tmplPre ++ pageParam page ++ sepStr ++ ppParam per_page ++ sepStr ++
      anParam year ++ sepStr,
   sepStr ++ txtParam text ++ sepStr ++ titleParam title ++ tmplMid ++ token ++ tmplPost,
   by rw [build_body_decomp]; simp [List.append_assoc]⟩

theorem occursIn_txtParam (token : List Char) (page per_page : Int)
    (title year number text : Option (List Char)) :
    occursIn (txtParam text) (build_search_body token page per_page title year number text) :=
  ⟨tmplPre ++ pageParam page ++ sepStr ++ ppParam per_page ++ sepStr ++
      anParam year ++ sepStr ++ numParam number ++ sepStr,
   sepStr ++ titleParam title ++ tmplMid ++ token ++ tmplPost,
   by rw [build_body_decomp]; simp [List.append_assoc]⟩

theorem occursIn_anParam (token : List Char) (page per_page : Int)
    (title year number text : Option (List Char)) :
    occursIn (anParam year) (build_search_body token page per_page title year number text) :=
  ⟨tmplPre ++ pageParam page ++ sepStr ++ ppParam per_page ++ sepStr,
   sepStr ++ numParam number ++ sepStr ++ txtParam text ++ sepStr ++ titleParam title ++
     tmplMid ++ token ++ tmplPost,
   by rw [build_body_decomp]; simp [List.append_assoc]⟩

theorem occursIn_pageParam (token : List Char) (page per_page : Int)
    (title year number text : Option (List Char)) :
    occursIn (pageParam page) (build_search_body token page per_page title year number text) :=
  ⟨tmplPre,
   sepStr ++ ppParam per_page ++ sepStr ++ anParam year ++ sepStr ++ numParam number ++
     sepStr ++ txtParam text ++ sepStr ++ titleParam title ++ tmplMid ++ token ++ tmplPost,
   by rw [build_body_decomp]; simp [List.append_assoc]⟩

theorem occursIn_ppParam (token : List Char) (page per_page : Int)
    (title year number text : Option (List Char)) :
    occursIn (ppParam per_page) (build_search_body token page per_page title year number text) :=
  ⟨tmplPre ++ pageParam page ++ sepStr,
   sepStr ++ anParam year ++ sepStr ++ numParam number ++ sepStr ++ txtParam text ++
     sepStr ++ titleParam title ++ tmplMid ++ token ++ tmplPost,
   by rw [build_body_decomp]; simp [List.append_assoc]⟩

theorem titleParam_of_truthy (title : List Char) (h : title ≠ []) :
    titleParam (some title) =
      "<a:SearchTitlu>".toList ++ xmlEscape title ++ "</a:SearchTitlu>".toList := by
  unfold titleParam optTruthy
  simp [h]

theorem numParam_of_truthy (number : List Char) (h : number ≠ []) :
    numParam (some number) =
      "<a:SearchNumar>".toList ++ xmlEscape number ++ "</a:SearchNumar>".toList := by
  unfold numParam optTruthy
  simp [h]

theorem txtParam_of_truthy (text : List Char) (h : text ≠ []) :
    txtParam (some text) =
      "<a:SearchText>".toList ++ xmlEscape text ++ "</a:SearchText>".toList := by
  unfold txtParam optTruthy
  simp [h]

theorem anParam_unparsable (year : List Char) (h : year ≠ []) (hp : pyInt year = none) :
    anParam (some year) = anParam none := by
  unfold anParam optTruthy
  simp [h, hp]

theorem anParam_parsed (year : List Char) (n : Int) (hp : pyInt year = some n) :
    anParam (some year) = "<a:SearchAn>".toList ++ intStr n ++ "</a:SearchAn>".toList := by
  have h : year ≠ [] := by
    intro he
    rw [he, show pyInt ([] : List Char) = none from rfl] at hp
    exact Option.noConfusion hp
  unfold anParam optTruthy
  simp [h, hp]

/-- C9: every string-valued filter (title, number, text) is XML-escaped
before insertion into the SOAP envelope, the escaped value (free of raw
angle brackets) appearing inside the corresponding element. -/
theorem string_filters_escaped (token : List Char) (page per_page : Int)
    (year : Option (List Char)) (title number text : List Char)
    (ht : title ≠ []) (hn : number ≠ []) (hx : text ≠ []) :
    occursIn ("<a:SearchTitlu>".toList ++ xmlEscape title ++ "</a:SearchTitlu>".toList)
      (build_search_body token page per_page (some title) year (some number) (some text)) ∧
    occursIn ("<a:SearchNumar>".toList ++ xmlEscape number ++ "</a:SearchNumar>".toList)
      (build_search_body token page per_page (some title) year (some number) (some text)) ∧
    occursIn ("<a:SearchText>".toList ++ xmlEscape text ++ "</a:SearchText>".toList)
      (build_search_body token page per_page (some title) year (some number) (some text)) ∧
    (∀ c ∈ xmlEscape title, c ≠ '<' ∧ c ≠ '>') := by
  refine ⟨?_, ?_, ?_, fun c hc => xmlEscape_no_angle title c hc⟩
  · have h := occursIn_titleParam token page per_page (some title) year (some number) (some text)
    rwa [titleParam_of_truthy title ht] at h
  · have h := occursIn_numParam token page per_page (some title) year (some number) (some text)
    rwa [numParam_of_truthy number hn] at h
  · have h := occursIn_txtParam token page per_page (some title) year (some number) (some text)
    rwa [txtParam_of_truthy text hx] at h

/-- C9 witness: a title containing `<script>&` is emitted into the
envelope escaped as `&lt;script&gt;&amp;`. -/
theorem string_filters_escaped_witness :
    occursIn ("<a:SearchTitlu>&lt;script&gt;&amp;</a:SearchTitlu>".toList)
      (build_search_body "t".toList 0 10 (some "<script>&".toList) none
        (some "1".toList) (some "q".toList)) := by
  have h := (string_filters_escaped "t".toList 0 10 none "<script>&".toList "1".toList
    "q".toList (by decide) (by decide) (by decide)).1
  have e : "<a:SearchTitlu>".toList ++ xmlEscape "<script>&".toList ++
      "</a:SearchTitlu>".toList = "<a:SearchTitlu>&lt;script&gt;&amp;</a:SearchTitlu>".toList := by
    decide
  rwa [e] at h

/-- C10: `build_search_body` is total in the year argument (the
`ValueError` of `int(year)` is caught): a non-empty unparsable year emits
the explicit nil marker and produces exactly the envelope built with no
year at all, so the raw year string is not inserted; a parsable year
emits its integer value. -/
theorem year_handling_total (token : List Char) (page per_page : Int)
    (title number text : Option (List Char)) (year : List Char) (hne : year ≠ []) :
    (pyInt year = none →
      build_search_body token page per_page title (some year) number text =
        build_search_body token page per_page title none number text ∧
      occursIn ("<a:SearchAn i:nil=\"true\" />".toList)
        (build_search_body token page per_page title (some year) number text)) ∧
    (∀ n : Int, pyInt year = some n →
      occursIn ("<a:SearchAn>".toList ++ intStr n ++ "</a:SearchAn>".toList)
        (build_search_body token page per_page title (some year) number text)) := by
  constructor
  · intro hp
    constructor
    · rw [build_body_decomp, build_body_decomp, anParam_unparsable year hne hp]
    · have h := occursIn_anParam token page per_page title (some year) number text
      rwa [anParam_unparsable year hne hp] at h
  · intro n hp
    have h := occursIn_anParam token page per_page title (some year) number text
    rwa [anParam_parsed year n hp] at h

/-- C10 witness: the unparsable year `"abc"` yields the nil marker and the
same envelope as an absent year. -/
theorem year_handling_total_witness :
    build_search_body "t".toList 0 10 none (some "abc".toList) none none =
      build_search_body "t".toList 0 10 none none none none ∧
    occursIn ("<a:SearchAn i:nil=\"true\" />".toList)
      (build_search_body "t".toList 0 10 none (some "abc".toList) none none) :=
  (year_handling_total "t".toList 0 10 none none none "abc".toList (by decide)).1 (by decide)

theorem get_new_token_ok (lifetime now : Nat) (resp : UpstreamResponse) (cache : TokenCache)
    (raw : List Char) (hs : resp.status = 200) (hm : findTokenMatch resp.body = some raw) :
    get_new_token lifetime now resp cache =
      (.ok (stripWs raw), ⟨some (stripWs raw), some (now + lifetime)⟩) := by
  unfold get_new_token
  rw [if_neg (by simp [hs]), hm]

theorem get_cached_token_hit (lifetime now : Nat) (resp : UpstreamResponse)
    (t : List Char) (e : Nat) (ht : t ≠ []) (he : now < e) :
    get_cached_token lifetime now resp ⟨some t, some e⟩ = (.ok (t, true), ⟨some t, some e⟩) := by
  unfold get_cached_token
  simp only
  rw [if_pos ⟨ht, he⟩]

theorem get_cached_token_fetch (lifetime now : Nat) (resp : UpstreamResponse)
    (cache : TokenCache) (raw : List Char) (hs : resp.status = 200)
    (hm : findTokenMatch resp.body = some raw)
    (hmiss : ∀ t e, cache.token = some t → cache.expires_at = some e → t = [] ∨ ¬ now < e) :
    get_cached_token lifetime now resp cache =
      (.ok (stripWs raw, false), ⟨some (stripWs raw), some (now + lifetime)⟩) := by
  obtain ⟨tok, exp⟩ := cache
  cases tok with
  | none =>
    unfold get_cached_token
    cases exp <;> simp only <;> rw [get_new_token_ok lifetime now resp _ raw hs hm]
  | some t =>
    cases exp with
    | none =>
      unfold get_cached_token
      simp only
      rw [get_new_token_ok lifetime now resp _ raw hs hm]
    | some e =>
      have hc : ¬ (t ≠ [] ∧ now < e) := by
        rcases hmiss t e rfl rfl with h | h
        · exact fun hand => hand.1 h
        · exact fun hand => h hand.2
      unfold get_cached_token
      simp only
      rw [if_neg hc, get_new_token_ok lifetime now resp _ raw hs hm]

/-- C5: `get_cached_token` returns the stored token with `wasCached = true`
whenever the current instant is strictly before the stored expiry
(`issuedAt + lifetime`); on a miss it synchronously fetches, stores the
fresh token with expiry `now + lifetime` and reports `wasCached = false`;
consequently a second call within the lifetime returns the same token with
`wasCached = true`. -/
theorem getToken_cache_spec (lifetime now : Nat) (resp : UpstreamResponse) :
    (∀ (t : List Char) (e : Nat), t ≠ [] → now < e →
      get_cached_token lifetime now resp ⟨some t, some e⟩ = (.ok (t, true), ⟨some t, some e⟩)) ∧
    (∀ (cache : TokenCache) (raw : List Char), resp.status = 200 →
      findTokenMatch resp.body = some raw →
      (∀ t e, cache.token = some t → cache.expires_at = some e → t = [] ∨ ¬ now < e) →
      get_cached_token lifetime now resp cache =
        (.ok (stripWs raw, false), ⟨some (stripWs raw), some (now + lifetime)⟩)) ∧
    (∀ (cache : TokenCache) (raw : List Char) (now2 : Nat) (resp2 : UpstreamResponse),
      resp.status = 200 → findTokenMatch resp.body = some raw →
      (∀ t e, cache.token = some t → cache.expires_at = some e → t = [] ∨ ¬ now < e) →
      stripWs raw ≠ [] → now2 < now + lifetime →
      get_cached_token lifetime now2 resp2 ((get_cached_token lifetime now resp cache).2) =
        (.ok (stripWs raw, true), (get_cached_token lifetime now resp cache).2)) := by
  refine ⟨fun t e ht he => get_cached_token_hit lifetime now resp t e ht he,
    fun cache raw hs hm hmiss => get_cached_token_fetch lifetime now resp cache raw hs hm hmiss,
    ?_⟩
  intro cache raw now2 resp2 hs hm hmiss hne hlt
  rw [get_cached_token_fetch lifetime now resp cache raw hs hm hmiss]
  exact get_cached_token_hit lifetime now2 resp2 (stripWs raw) (now + lifetime) hne hlt

/-- C5 witness: a fetch at time 0 stores the token; a second call at time
5 < 3600 returns the same token with `wasCached = true`. -/
theorem getToken_cache_spec_witness :
    get_cached_token 3600 5 ⟨404, []⟩
        ((get_cached_token 3600 0 ⟨200, "<GetTokenResult>tok</GetTokenResult>".toList⟩
          emptyCache).2) =
      (.ok ("tok".toList, true),
        (get_cached_token 3600 0 ⟨200, "<GetTokenResult>tok</GetTokenResult>".toList⟩
          emptyCache).2) :=
  (getToken_cache_spec 3600 0 ⟨200, "<GetTokenResult>tok</GetTokenResult>".toList⟩).2.2
    emptyCache "tok".toList 5 ⟨404, []⟩ rfl (by decide)
    (fun t e h _ => Option.noConfusion h) (by decide) (by decide)

/-- C6: a failed token fetch — non-200 status or a body without the
`GetTokenResult` tag — raises (`Except.error`) and leaves the token cache
exactly as it was: no partial token or expiry is stored. -/
theorem token_fetch_failure_preserves_cache (lifetime now : Nat)
    (resp : UpstreamResponse) (cache : TokenCache)
    (h : resp.status ≠ 200 ∨ findTokenMatch resp.body = none) :
    (get_new_token lifetime now resp cache).2 = cache ∧
    ∃ m, (get_new_token lifetime now resp cache).1 = .error m := by
  unfold get_new_token
  rcases h with h | h
  · rw [if_pos h]
    exact ⟨rfl, _, rfl⟩
  · by_cases hs : resp.status ≠ 200
    · rw [if_pos hs]
      exact ⟨rfl, _, rfl⟩
    · rw [if_neg hs, h]
      exact ⟨rfl, _, rfl⟩

/-- C6 witness: a 500 `GetToken` response leaves a populated cache
untouched and raises. -/
theorem token_fetch_failure_preserves_cache_witness :
    (get_new_token 3600 0 ⟨500, "x".toList⟩ ⟨some "t".toList, some 99⟩).2 =
      ⟨some "t".toList, some 99⟩ ∧
    ∃ m, (get_new_token 3600 0 ⟨500, "x".toList⟩ ⟨some "t".toList, some 99⟩).1 = .error m :=
  token_fetch_failure_preserves_cache 3600 0 ⟨500, "x".toList⟩ ⟨some "t".toList, some 99⟩
    (Or.inl (by decide))

theorem finishResp_attempts (title year : Option (List Char)) (resp : UpstreamResponse)
    (attempts : Nat) (inval : Bool) (c : TokenCache) :
    (finishResp title year resp attempts inval c).1.attempts = attempts := by
  unfold finishResp
  split <;> rfl

theorem finishResp_invalidated (title year : Option (List Char)) (resp : UpstreamResponse)
    (attempts : Nat) (inval : Bool) (c : TokenCache) :
    (finishResp title year resp attempts inval c).1.invalidated = inval := by
  unfold finishResp
  split <;> rfl

theorem finishResp_success_iff (title year : Option (List Char)) (resp : UpstreamResponse)
    (attempts : Nat) (inval : Bool) (c : TokenCache) :
    (finishResp title year resp attempts inval c).1.success = true ↔ resp.status = 200 := by
  unfold finishResp
  split
  · next h => simp only [show (False : Prop) ↔ resp.status = 200 from ⟨False.elim, h⟩]; simp [h]
  · next h =>
    simp only [not_not] at h
    simp [h]

theorem finishResp_success (title year : Option (List Char)) (resp : UpstreamResponse)
    (attempts : Nat) (inval : Bool) (c : TokenCache)
    (ht : optTruthy title = true) (hy : optTruthy year = true)
    (hs : (finishResp title year resp attempts inval c).1.success = true) :
    (finishResp title year resp attempts inval c).1.results =
      (parse_results resp.body).filter (fun r => hasPre (year.getD []) r.effective_date) := by
  unfold finishResp at hs ⊢
  split at hs
  · simp at hs
  · next h =>
    rw [if_neg h]
    simp [ht, hy]

theorem retryStep_err (lifetime : Nat) (env : Env) (title year : Option (List Char))
    (m : List Char) (c3 : TokenCache)
    (hg : get_cached_token lifetime env.now env.fetch2 emptyCache = (.error m, c3)) :
    retryStep lifetime env title year = (errResult 1 true, c3) := by
  unfold retryStep
  rw [hg]

theorem retryStep_ok (lifetime : Nat) (env : Env) (title year : Option (List Char))
    (tb : List Char × Bool) (c3 : TokenCache)
    (hg : get_cached_token lifetime env.now env.fetch2 emptyCache = (.ok tb, c3)) :
    retryStep lifetime env title year = finishResp title year env.search2 2 true c3 := by
  unfold retryStep
  rw [hg]

theorem search_handler_err_page (lifetime : Nat) (env : Env) (cache : TokenCache)
    (page per_page title year number text : Option (List Char)) (m : List Char)
    (hp : parse_page page = .error m) :
    search_handler lifetime env cache page per_page title year number text =
      (errResult 0 false, cache) := by
  unfold search_handler
  rw [hp]

theorem search_handler_err_pp (lifetime : Nat) (env : Env) (cache : TokenCache)
    (page per_page title year number text : Option (List Char)) (p : Int) (m : List Char)
    (hp : parse_page page = .ok p) (hpp : parse_per_page per_page = .error m) :
    search_handler lifetime env cache page per_page title year number text =
      (errResult 0 false, cache) := by
  unfold search_handler
  rw [hp, hpp]

theorem search_handler_err_token (lifetime : Nat) (env : Env) (cache : TokenCache)
    (page per_page title year number text : Option (List Char)) (p q : Int)
    (m : List Char) (c1 : TokenCache)
    (hp : parse_page page = .ok p) (hpp : parse_per_page per_page = .ok q)
    (hg : get_cached_token lifetime env.now env.fetch1 cache = (.error m, c1)) :
    search_handler lifetime env cache page per_page title year number text =
      (errResult 0 false, c1) := by
  unfold search_handler
  rw [hp, hpp, hg]

theorem search_handler_main (lifetime : Nat) (env : Env) (cache : TokenCache)
    (page per_page title year number text : Option (List Char)) (p q : Int)
    (t : List Char) (wc : Bool) (c1 : TokenCache)
    (hp : parse_page page = .ok p) (hpp : parse_per_page per_page = .ok q)
    (hg : get_cached_token lifetime env.now env.fetch1 cache = (.ok (t, wc), c1)) :
    search_handler lifetime env cache page per_page title year number text =
      (if env.search1.status = 500 ∧ wc = true then retryStep lifetime env title year
       else finishResp title year env.search1 1 false c1) := by
  unfold search_handler
  rw [hp, hpp, hg]

/-- C1: when both a title and a year filter are supplied (truthy), a
successful search returns exactly the parsed records of the final
upstream response whose `effective_date` starts with the year string —
all other parsed records are removed by the client-side post-filter. -/
theorem search_year_title_postfilter (lifetime : Nat) (env : Env) (cache : TokenCache)
    (page per_page title year number text : Option (List Char))
    (ht : optTruthy title = true) (hy : optTruthy year = true)
    (hs : (search_handler lifetime env cache page per_page title year number text).1.success
      = true) :
    (search_handler lifetime env cache page per_page title year number text).1.results =
      (parse_results
        (if (search_handler lifetime env cache page per_page title year number
              text).1.attempts = 2
         then env.search2.body else env.search1.body)).filter
        (fun r => hasPre (year.getD []) r.effective_date) := by
  cases hp : parse_page page with
  | error m =>
    rw [search_handler_err_page lifetime env cache page per_page title year number text m hp]
      at hs
    simp [errResult] at hs
  | ok p =>
    cases hpp : parse_per_page per_page with
    | error m =>
      rw [search_handler_err_pp lifetime env cache page per_page title year number text
        p m hp hpp] at hs
      simp [errResult] at hs
    | ok q =>
      cases hg : get_cached_token lifetime env.now env.fetch1 cache with
      | mk r c1 =>
        cases r with
        | error m =>
          rw [search_handler_err_token lifetime env cache page per_page title year number
            text p q m c1 hp hpp hg] at hs
          simp [errResult] at hs
        | ok tb =>
          obtain ⟨t, wc⟩ := tb
          rw [search_handler_main lifetime env cache page per_page title year number text
            p q t wc c1 hp hpp hg] at hs ⊢
          by_cases hcond : env.search1.status = 500 ∧ wc = true
          · rw [if_pos hcond] at hs ⊢
            cases hg2 : get_cached_token lifetime env.now env.fetch2 emptyCache with
            | mk r2 c3 =>
              cases r2 with
              | error m =>
                rw [retryStep_err lifetime env title year m c3 hg2] at hs
                simp [errResult] at hs
              | ok tb2 =>
                rw [retryStep_ok lifetime env title year tb2 c3 hg2] at hs ⊢
                rw [finishResp_attempts]
                simp only [if_pos rfl]
                exact finishResp_success title year env.search2 2 true c3 ht hy hs
          · rw [if_neg hcond] at hs ⊢
            rw [finishResp_attempts]
            rw [if_neg (by decide : ¬ (1 : Nat) = 2)]
            exact finishResp_success title year env.search1 1 false c1 ht hy hs

/-- C1 witness: with `title="X"`, `year="2014"` and upstream effective
dates 2014-01-01 / 2015-06-01 / 2014-09-09, exactly the two 2014 records
come back. -/
theorem search_year_title_postfilter_witness :
    (search_handler 3600 envC1 emptyCache none none (some "X".toList) (some "2014".toList)
        none none).1.results =
      (parse_results
        (if (search_handler 3600 envC1 emptyCache none none (some "X".toList)
              (some "2014".toList) none none).1.attempts = 2
         then envC1.search2.body else envC1.search1.body)).filter
        (fun r => hasPre ((some "2014".toList).getD []) r.effective_date) ∧
    ((search_handler 3600 envC1 emptyCache none none (some "X".toList) (some "2014".toList)
        none none).1.results.map fun r => r.effective_date) =
      ["2014-01-01".toList, "2014-09-09".toList] :=
  ⟨search_year_title_postfilter 3600 envC1 emptyCache none none (some "X".toList)
      (some "2014".toList) none none (by decide) (by decide) (by decide),
   by decide⟩

/-- C2 counterexample: the token is cache-sourced and the first response
status (403) is non-200, yet the handler performs no invalidation and no
retry — the retry trigger in the code is `status_code == 500` exactly,
not any non-200 status. -/
theorem search_no_retry_on_403 :
    get_cached_token 3600 envC2.now envC2.fetch1 cacheC2 = (.ok ("t".toList, true), cacheC2) ∧
    envC2.search1.status ≠ 200 ∧
    (search_handler 3600 envC2 cacheC2 none none none none none none).1.attempts = 1 ∧
    (search_handler 3600 envC2 cacheC2 none none none none none none).1.invalidated = false ∧
    (search_handler 3600 envC2 cacheC2 none none none none none none).1.success = false :=
  ⟨rfl, by decide, rfl, rfl, rfl⟩

/-- C2 (amended): with a cache-sourced token, the handler invalidates and
retries exactly once when the first response status is exactly 500 (and
then a non-200 on the retry is terminal); a non-500 first response — even
a non-200 one — triggers no retry, and a token that was not cache-sourced
never triggers a retry.  At most two upstream search calls ever happen. -/
theorem search_retry_policy (lifetime : Nat) (env : Env) (cache : TokenCache)
    (page per_page title year number text : Option (List Char)) (p q : Int)
    (hp : parse_page page = .ok p) (hpp : parse_per_page per_page = .ok q) :
    (search_handler lifetime env cache page per_page title year number text).1.attempts ≤ 2 ∧
    (∀ t c1, get_cached_token lifetime env.now env.fetch1 cache = (.ok (t, true), c1) →
      ((search_handler lifetime env cache page per_page title year number
          text).1.invalidated = true ↔ env.search1.status = 500) ∧
      (env.search1.status = 500 →
        ∀ tb2 c3, get_cached_token lifetime env.now env.fetch2 emptyCache = (.ok tb2, c3) →
          (search_handler lifetime env cache page per_page title year number
            text).1.attempts = 2 ∧
          (env.search2.status ≠ 200 →
            (search_handler lifetime env cache page per_page title year number
              text).1.success = false)) ∧
      (env.search1.status ≠ 500 →
        (search_handler lifetime env cache page per_page title year number
          text).1.attempts = 1)) ∧
    (∀ t c1, get_cached_token lifetime env.now env.fetch1 cache = (.ok (t, false), c1) →
      (search_handler lifetime env cache page per_page title year number
        text).1.attempts = 1 ∧
      (search_handler lifetime env cache page per_page title year number
        text).1.invalidated = false) := by
  refine ⟨?_, ?_, ?_⟩
  · cases hg : get_cached_token lifetime env.now env.fetch1 cache with
    | mk r c1 =>
      cases r with
      | error m =>
        rw [search_handler_err_token lifetime env cache page per_page title year number
          text p q m c1 hp hpp hg]
        simp [errResult]
      | ok tb =>
        obtain ⟨t, wc⟩ := tb
        rw [search_handler_main lifetime env cache page per_page title year number text
          p q t wc c1 hp hpp hg]
        by_cases hcond : env.search1.status = 500 ∧ wc = true
        · rw [if_pos hcond]
          cases hg2 : get_cached_token lifetime env.now env.fetch2 emptyCache with
          | mk r2 c3 =>
            cases r2 with
            | error m =>
              rw [retryStep_err lifetime env title year m c3 hg2]
              simp [errResult]
            | ok tb2 =>
              rw [retryStep_ok lifetime env title year tb2 c3 hg2, finishResp_attempts]
        · rw [if_neg hcond, finishResp_attempts]
          omega
  · intro t c1 hg
    rw [search_handler_main lifetime env cache page per_page title year number text
      p q t true c1 hp hpp hg]
    by_cases hst : env.search1.status = 500
    · rw [if_pos ⟨hst, rfl⟩]
      refine ⟨?_, ?_, fun hne => absurd hst hne⟩
      · cases hg2 : get_cached_token lifetime env.now env.fetch2 emptyCache with
        | mk r2 c3 =>
          cases r2 with
          | error m =>
            rw [retryStep_err lifetime env title year m c3 hg2]
            simp [errResult, hst]
          | ok tb2 =>
            rw [retryStep_ok lifetime env title year tb2 c3 hg2, finishResp_invalidated]
            simp [hst]
      · intro _ tb2 c3 hg2
        rw [retryStep_ok lifetime env title year tb2 c3 hg2, finishResp_attempts]
        refine ⟨rfl, fun h200 => ?_⟩
        cases hsucc : (finishResp title year env.search2 2 true c3).1.success with
        | false => rfl
        | true =>
          exact absurd ((finishResp_success_iff title year env.search2 2 true c3).mp hsucc)
            h200
    · rw [if_neg fun hand => hst hand.1]
      refine ⟨?_, fun h500 => absurd h500 hst, fun _ => finishResp_attempts _ _ _ _ _ _⟩
      rw [finishResp_invalidated]
      simp [hst]
  · intro t c1 hg
    rw [search_handler_main lifetime env cache page per_page title year number text
      p q t false c1 hp hpp hg]
    rw [if_neg fun hand => Bool.noConfusion hand.2]
    exact ⟨finishResp_attempts _ _ _ _ _ _, finishResp_invalidated _ _ _ _ _ _⟩

/-- C2 witness: cached token, first response 500 — the handler
invalidates and retries exactly once, succeeding on the retry. -/
theorem search_retry_policy_witness :
    (search_handler 3600 envC2b cacheC2 none none none none none none).1.attempts = 2 ∧
    (search_handler 3600 envC2b cacheC2 none none none none none none).1.invalidated = true := by
  have h := search_retry_policy 3600 envC2b cacheC2 none none none none none none 0 10
    rfl rfl
  have h2 := h.2.1 "t".toList cacheC2 rfl
  exact ⟨(h2.2.1 rfl ("tok2".toList, false) ⟨some "tok2".toList, some 3600⟩ rfl).1,
    h2.1.mpr rfl⟩

/-- C3 counterexample: `per_page=0` (< 1) is used as 0, not defaulted to
10, and an unparsable `per_page` raises instead of defaulting. -/
theorem per_page_not_defaulted_low :
    parse_per_page (some "0".toList) = .ok 0 ∧ (0 : Int) ≠ 10 ∧
    parse_per_page (some "x".toList) = .error "ValueError".toList :=
  ⟨rfl, by decide, rfl⟩

/-- C3 (amended): `per_page` parses via `int` and only the upper bound is
clamped — values above 100 become exactly 100, an absent value defaults
to 10, values below 1 are used unchanged (`min n 100 = n`), and an
unparsable value makes the request fail; whatever effective value results
is emitted into the upstream envelope. -/
theorem per_page_clamp_spec :
    parse_per_page none = .ok 10 ∧
    (∀ s, pyInt s = none → parse_per_page (some s) = .error "ValueError".toList) ∧
    (∀ s n, pyInt s = some n → parse_per_page (some s) = .ok (min n 100)) ∧
    (∀ s n, pyInt s = some n → 100 < n → parse_per_page (some s) = .ok 100) ∧
    (∀ (token : List Char) (page pp : Int) (title year number text : Option (List Char)),
      occursIn (ppParam pp) (build_search_body token page pp title year number text)) := by
  refine ⟨rfl, ?_, ?_, ?_,
    fun token page pp title year number text =>
      occursIn_ppParam token page pp title year number text⟩
  · intro s h
    simp only [parse_per_page]
    rw [h]
  · intro s n h
    simp only [parse_per_page]
    rw [h]
  · intro s n h h100
    simp only [parse_per_page]
    rw [h]
    show Except.ok (min n 100) = Except.ok 100
    rw [min_eq_right (le_of_lt h100)]

/-- C3 witness: `per_page=150` is clamped to exactly 100. -/
theorem per_page_clamp_spec_witness :
    parse_per_page (some "150".toList) = .ok 100 :=
  per_page_clamp_spec.2.2.2.1 "150".toList 150 (by decide) (by decide)

/-- C4 counterexample: `page=-3` is used as -3, not replaced by 0, and an
unparsable `page` raises instead of defaulting to 0. -/
theorem page_not_defaulted_negative :
    parse_page (some "-3".toList) = .ok (-3) ∧ ((-3 : Int) ≠ 0) ∧
    parse_page (some "x".toList) = .error "ValueError".toList :=
  ⟨rfl, by decide, rfl⟩

/-- C4 (amended): `page` defaults to 0 only when absent; a parsable value
— negative included — is used exactly as parsed and emitted into the
upstream envelope; an unparsable value makes the request fail. -/
theorem page_parse_spec :
    parse_page none = .ok 0 ∧
    (∀ s, pyInt s = none → parse_page (some s) = .error "ValueError".toList) ∧
    (∀ s n, pyInt s = some n → parse_page (some s) = .ok n) ∧
    (∀ (token : List Char) (page pp : Int) (title year number text : Option (List Char)),
      occursIn (pageParam page) (build_search_body token page pp title year number text)) := by
  refine ⟨rfl, ?_, ?_,
    fun token page pp title year number text =>
      occursIn_pageParam token page pp title year number text⟩
  · intro s h
    simp only [parse_page]
    rw [h]
  · intro s n h
    simp only [parse_page]
    rw [h]

/-- C4 witness: `page=-7` parses to -7 and is used as-is. -/
theorem page_parse_spec_witness :
    parse_page (some "-7".toList) = .ok (-7) :=
  page_parse_spec.2.2.1 "-7".toList (-7) (by decide)

theorem hasPre_of_append : ∀ (p q : List Char), hasPre p (p ++ q) = true
  | [], _ => rfl
  | a :: as, q => by simp [hasPre, hasPre_of_append as q]

theorem occursIn_findSplit (p : List Char) :
    ∀ s, occursIn p s → ∃ x, findSplit p s = some x := by
  intro s
  induction s with
  | nil =>
    rintro ⟨pre, post, h⟩
    obtain ⟨h1, hpost⟩ := List.append_eq_nil.mp h.symm
    obtain ⟨hpre, hp⟩ := List.append_eq_nil.mp h1
    subst hp
    exact ⟨([], []), rfl⟩
  | cons c cs ih =>
    rintro ⟨pre, post, h⟩
    cases pre with
    | nil =>
      simp only [List.nil_append] at h
      refine ⟨([], (c :: cs).drop p.length), ?_⟩
      unfold findSplit
      rw [if_pos (by rw [h]; exact hasPre_of_append p post)]
    | cons c' pre' =>
      simp only [List.cons_append] at h
      injection h with h1 h2
      obtain ⟨y, hy⟩ := ih ⟨pre', post, h2⟩
      unfold findSplit
      by_cases hp : hasPre p (c :: cs) = true
      · exact ⟨_, by rw [if_pos hp]⟩
      · exact ⟨_, by rw [if_neg hp, hy]⟩

theorem not_occursIn_of_findSplit_none (p s : List Char) (h : findSplit p s = none) :
    ¬ occursIn p s := by
  intro hocc
  obtain ⟨x, hx⟩ := occursIn_findSplit p s hocc
  rw [h] at hx
  exact Option.noConfusion hx

theorem extract_tag_absent (xml tag : List Char)
    (h1 : ¬ occursIn ("<a:".toList ++ tag ++ ['>']) xml)
    (h2 : ¬ occursIn ("<".toList ++ tag ++ ['>']) xml) :
    extract_tag xml tag = [] := by
  unfold extract_tag
  rw [extractBetween_none_of_absent _ _ _ h1, extractBetween_none_of_absent _ _ _ h2]

/-- C7 counterexample: a fragment lacking a `Titlu` tag is NOT excluded —
the handler returns exactly one record and its title is the empty
string. -/
theorem empty_title_record_returned :
    ((search_handler 3600 envC7 emptyCache none none none none none none).1.results.map
      fun r => r.title) = [[]] ∧
    (search_handler 3600 envC7 emptyCache none none none none none none).1.success = true :=
  ⟨by decide, rfl⟩

/-- C7 (amended): result extraction performs no title-based filtering —
every parsed fragment contributes its record to the result list, and a
fragment containing no `Titlu` tag contributes a record whose title is
the empty string. -/
theorem fragments_not_filtered_by_title :
    (∀ body f, f ∈ legiFragments body → format_lege f ∈ parse_results body) ∧
    (∀ f, ¬ occursIn ("<a:Titlu>".toList) f → ¬ occursIn ("<Titlu>".toList) f →
      (format_lege f).title = []) := by
  constructor
  · intro body f hf
    exact List.mem_map_of_mem format_lege hf
  · intro f h1 h2
    show extract_tag f "Titlu".toList = []
    exact extract_tag_absent f "Titlu".toList h1 h2

/-- C7 witness: the title-less fragment of `bodyC7` yields a record that
is in the parsed result list with an empty title. -/
theorem fragments_not_filtered_by_title_witness :
    format_lege ("<a:Numar>5</a:Numar>".toList) ∈ parse_results bodyC7 ∧
    (format_lege ("<a:Numar>5</a:Numar>".toList)).title = [] := by
  have h := fragments_not_filtered_by_title
  exact ⟨h.1 bodyC7 _ (by decide),
    h.2 _ (not_occursIn_of_findSplit_none _ _ (by decide))
      (not_occursIn_of_findSplit_none _ _ (by decide))⟩

/-- C8 counterexample: tag matching is case-SENSITIVE — the same content
under a lowercased tag name is not found (empty string), while the
exact-case tag is found. -/
theorem extract_tag_case_sensitive :
    extract_tag "<a:titlu>abc</a:titlu>".toList "Titlu".toList = [] ∧
    extract_tag "<a:Titlu>abc</a:Titlu>".toList "Titlu".toList = "abc".toList :=
  ⟨rfl, rfl⟩

/-- C8 (amended): field extraction is a tolerant but case-SENSITIVE tag
search — it tries `<a:tag>` then `<tag>` with exact case, a fragment
containing neither form yields the empty string, and a case-mismatched
tag is treated as absent. -/
theorem extract_tag_spec :
    (∀ xml tag, ¬ occursIn ("<a:".toList ++ tag ++ ['>']) xml →
      ¬ occursIn ("<".toList ++ tag ++ ['>']) xml → extract_tag xml tag = []) ∧
    extract_tag "<a:Titlu>abc</a:Titlu>".toList "Titlu".toList = "abc".toList ∧
    extract_tag "<A:TITLU>abc</A:TITLU>".toList "Titlu".toList = [] :=
  ⟨extract_tag_absent, rfl, rfl⟩

/-- C8 witness: a fragment holding only a `Numar` tag yields the empty
string for the `Titlu` field. -/
theorem extract_tag_spec_witness :
    extract_tag ("<a:Numar>5</a:Numar>".toList) "Titlu".toList = [] :=
  extract_tag_spec.1 ("<a:Numar>5</a:Numar>".toList) ("Titlu".toList)
    (not_occursIn_of_findSplit_none _ _ (by decide))
    (not_occursIn_of_findSplit_none _ _ (by decide))
